import Mathlib

/-!
Verification of the async job protocol, chat turn controller, session state
machine and object-store listing of `streamlit_app.py` (a Streamlit front end
for a document-processing job API), as a shallow embedding in Lean 4.

Modelling conventions:
* a JSON dict returned by `api_request` is modelled by an `Option`-valued
  structure (`none` = the request raised and `api_request` returned `None`;
  missing dict keys are `none` fields);
* Python truthiness of an optional string (`if chat_id:`,
  `status_response.get("result")`) is `truthyStr`: `some s` is truthy iff
  `s ≠ ""`;
* `json.loads` of the `result` string is an external library call and is
  passed in as a function `parse : String → Option ParsedResult`
  (`none` = `json.JSONDecodeError`);
* the status endpoint is modelled as the sequence of responses the run
  receives: `status : String → Nat → Option StatusResponse`, the response to
  the i-th status call for a given kickoff id.
-/

/-- A parsed status response: `state` and `result` fields of the JSON dict
returned by `GET status/{id}` (either may be absent). -/
structure StatusResponse where
  state : Option String
  result : Option String
  deriving DecidableEq, Repr

/-- The structure obtained by `json.loads` of a `result` string:
`response` and `id` fields, either may be absent. -/
structure ParsedResult where
  response : Option String
  id : Option String
  deriving DecidableEq, Repr

/-- One entry of `st.session_state.chat_messages`:
`{"role": ..., "content": ...}`. -/
structure ChatMessage where
  role : String
  content : String
  deriving DecidableEq, Repr

/-- The session-state fields used by the processing and chat features:
`st.session_state.processing`, `.kickoff_id`, `.upload_complete`,
`.chat_messages`, `.chat_id`. -/
structure SessionState where
  processing : Bool
  kickoff_id : Option String
  upload_complete : Bool
  chat_messages : List ChatMessage
  chat_id : Option String
  deriving DecidableEq, Repr

/-- Python truthiness of an optional string value: `None` and `""` are falsy,
every other string is truthy. -/
def truthyStr : Option String → Bool
  | some s => !(s == "")
  | none => false

/-- The `inputs` dict built for a chat kickoff: always `current_message`,
and an `id` key only on follow-up messages. -/
structure ChatInputs where
  current_message : String
  id : Option String
  deriving DecidableEq, Repr

/-- Lines 454-468: build the kickoff `input_data` for a chat turn.
`if st.session_state.chat_id is None:` send only `current_message`,
`else:` also send `id = st.session_state.chat_id`. -/
def chatInputData (chat_id : Option String) (current_message : String) :
    ChatInputs :=
  match chat_id with
  | none => { current_message := current_message, id := none }
  | some cid => { current_message := current_message, id := some cid }

/-- Outcome of the chat status-polling loop (lines 485-515). -/
inductive ChatPollOutcome where
  /-- `SUCCESS` with a truthy `result` that `json.loads` parsed:
  the extracted `response` text (default `""`) and the raw `id` field. -/
  | answered (text : String) (newId : Option String)
  /-- `SUCCESS` with a truthy `result` that failed to parse:
  `st.error("Error parsing result JSON: ...")` then `break`. -/
  | parseError
  /-- state in `["FAILURE", "TIMEOUT"]`:
  `st.error("Request failed with state: ...")` then `break`. -/
  | jobFailed (st : String)
  /-- the loop reached its last iteration without a terminal branch:
  `st.error("Timed out waiting for response")`. -/
  | pollTimeout
  deriving DecidableEq, Repr

/-- Lines 484-515, the chat poll loop body.  `for i in range(max_retries):`
is modelled with `fuel` = the number of iterations remaining, so the source's
`i == max_retries - 1` test is `fuel = 1`, i.e. the inner `fuel` pattern
variable is `0`.  Returns the number of status calls made and the outcome.

```
for i in range(max_retries):
    status_response = api_request(f"status/{kickoff_id}", method="GET")
    if status_response and status_response.get("state") == "SUCCESS"
            and status_response.get("result"):
        try: result_data = json.loads(status_response["result"]); ...; break
        except json.JSONDecodeError: st.error(...); break
    elif status_response and status_response.get("state") in ["FAILURE", "TIMEOUT"]:
        st.error(...); break
    elif i == max_retries - 1:
        st.error("Timed out waiting for response")
    else:
        time.sleep(0.1)
```
-/
def chatPollGo (resp : Nat → Option StatusResponse)
    (parse : String → Option ParsedResult) : Nat → Nat → Nat × ChatPollOutcome
  | _, 0 => (0, .pollTimeout)
  | i, fuel + 1 =>
    match resp i with
    | some r =>
      if r.state == some "SUCCESS" && truthyStr r.result then
        match parse (r.result.getD "") with
        | some pd => (1, .answered (pd.response.getD "") pd.id)
        | none => (1, .parseError)
      else if r.state == some "FAILURE" || r.state == some "TIMEOUT" then
        (1, .jobFailed (r.state.getD ""))
      else if fuel == 0 then
        (1, .pollTimeout)
      else
        let next := chatPollGo resp parse (i + 1) fuel
        (next.1 + 1, next.2)
    | none =>
      if fuel == 0 then
        (1, .pollTimeout)
      else
        let next := chatPollGo resp parse (i + 1) fuel
        (next.1 + 1, next.2)

/-- The chat poll loop with the source's budget `max_retries = 120`. -/
def chatPoll (resp : Nat → Option StatusResponse)
    (parse : String → Option ParsedResult) : Nat × ChatPollOutcome :=
  chatPollGo resp parse 0 120

/-- Outcome of one whole chat turn. -/
inductive ChatTurnOutcome where
  /-- the kickoff response was `None` or lacked `"kickoff_id"`:
  `st.error("Failed to get a kickoff ID from the API")`. -/
  | submitFailed
  /-- a kickoff id was obtained and the poll loop ran with this outcome. -/
  | polled (po : ChatPollOutcome)
  deriving DecidableEq, Repr

/-- Result of a chat turn: the new session state plus bookkeeping used by the
specification (which inputs were sent, which job id was polled, how many
status calls were made, and the outcome). -/
structure ChatTurnResult where
  state : SessionState
  inputs : ChatInputs
  polledId : Option String
  statusCalls : Nat
  outcome : ChatTurnOutcome
  deriving DecidableEq, Repr

/-- Lines 444-519: one chat turn.
1. append `{"role": "user", "content": current_message}` to `chat_messages`;
2. build `input_data` from `chat_id` (`chatInputData`);
3. kickoff; if the response is `None` or has no `"kickoff_id"`, error out;
4. otherwise poll `status/{kickoff_id}` (`chatPoll`); on `answered`,
   set `chat_id` if the returned id is truthy and append the assistant
   message; all other outcomes only surface an error. -/
def chatTurn (kickoff : Option (Option String))
    (status : String → Nat → Option StatusResponse)
    (parse : String → Option ParsedResult)
    (s : SessionState) (current_message : String) : ChatTurnResult :=
  let s1 : SessionState :=
    { s with chat_messages :=
        s.chat_messages ++ [{ role := "user", content := current_message }] }
  let inputs := chatInputData s.chat_id current_message
  match kickoff with
  | some (some kid) =>
    let pr := chatPoll (status kid) parse
    match pr.2 with
    | .answered text newId =>
      let s2 : SessionState :=
        if truthyStr newId then { s1 with chat_id := newId } else s1
      let s3 : SessionState :=
        { s2 with chat_messages :=
            s2.chat_messages ++ [{ role := "assistant", content := text }] }
      { state := s3, inputs := inputs, polledId := some kid,
        statusCalls := pr.1, outcome := .polled (.answered text newId) }
    | po =>
      { state := s1, inputs := inputs, polledId := some kid,
        statusCalls := pr.1, outcome := .polled po }
  | _ =>
    { state := s1, inputs := inputs, polledId := none,
      statusCalls := 0, outcome := .submitFailed }

/-- Lines 526-528, the "Clear Chat" button handler:
`st.session_state.chat_messages = []; st.session_state.chat_id = None`. -/
def clearChat (s : SessionState) : SessionState :=
  { s with chat_messages := [], chat_id := none }

/-- Outcome of the bulk auto-poll loop (lines 376-404). -/
inductive BulkOutcome where
  /-- a status response with state `"SUCCESS"`: `complete = True`,
  `st.session_state.processing = False`, `break`. -/
  | completed
  /-- `status_data` was falsy:
  `status_container.error("Failed to retrieve status")` then `break`. -/
  | transportFail
  /-- `attempts >= max_attempts and not complete`:
  `status_container.warning("Processing is taking longer than expected.")`. -/
  | timedOut
  deriving DecidableEq, Repr

/-- Lines 376-400, the bulk auto-poll `while` loop, with `fuel` the number of
remaining iterations allowed by `attempts < max_attempts`.  Returns the number
of status calls made and the outcome.  Note the loop breaks only on
`"SUCCESS"` (`status_data.get('state', 'UNKNOWN') == "SUCCESS"`) or on a falsy
`status_data`; every other state, `FAILURE` and `TIMEOUT` included, is slept
on and re-polled.

```
while not complete and attempts < max_attempts:
    status_data = api_request(f"status/{st.session_state.kickoff_id}")
    if status_data:
        current_state = status_data.get('state', 'UNKNOWN')
        if current_state == "SUCCESS":
            complete = True; st.session_state.processing = False; break
        time.sleep(0.1)
    else:
        status_container.error("Failed to retrieve status"); break
    attempts += 1
```
-/
def bulkLoopGo (resp : Nat → Option StatusResponse) :
    Nat → Nat → Nat × BulkOutcome
  | _, 0 => (0, .timedOut)
  | i, fuel + 1 =>
    match resp i with
    | none => (1, .transportFail)
    | some sd =>
      if sd.state.getD "UNKNOWN" == "SUCCESS" then
        (1, .completed)
      else
        let next := bulkLoopGo resp (i + 1) fuel
        (next.1 + 1, next.2)

/-- The bulk auto-poll loop with the source's budget `max_attempts = 30`. -/
def bulkPollLoop (resp : Nat → Option StatusResponse) : Nat × BulkOutcome :=
  bulkLoopGo resp 0 30

/-- Lines 347, 373-404: the auto-poll section.  It runs only inside
`if st.session_state.kickoff_id:` (Python truthiness) and
`if st.session_state.processing:`; when it runs, a `completed` outcome sets
`processing = False` and every other outcome leaves the state unchanged.
Returns the state, the number of status calls, and the loop outcome
(`none` when the guard kept the loop from running). -/
def bulkAutoPoll (resp : Nat → Option StatusResponse) (s : SessionState) :
    SessionState × Nat × Option BulkOutcome :=
  if truthyStr s.kickoff_id && s.processing then
    let pr := bulkPollLoop resp
    match pr.2 with
    | .completed => ({ s with processing := false }, pr.1, some .completed)
    | po => (s, pr.1, some po)
  else
    (s, 0, none)

/-- Lines 319-341, the "Process All Documents" button handler.
`kickoffResp` models the `api_request("kickoff", ...)` result: `none` for a
failed request, `some k` for a response dict whose `"kickoff_id"` entry is
`k`.  The handler first sets `processing = True` and `kickoff_id = None`;
on a response containing `"kickoff_id"` it stores the id; otherwise it shows
an error and sets `processing = False`. -/
def processAllDocuments (kickoffResp : Option (Option String))
    (s : SessionState) : SessionState :=
  let s1 : SessionState := { s with processing := true, kickoff_id := none }
  match kickoffResp with
  | some (some kid) => { s1 with kickoff_id := some kid }
  | _ => { s1 with processing := false }


/-- Check that `p` is an initial segment of `s` (character lists). -/
def matchesAt : List Char → List Char → Bool
  | [], _ => true
  | _ :: _, [] => false
  | p :: ps, c :: cs => p == c && matchesAt ps cs

/-- Left-to-right, non-overlapping replacement of `pat` by `rep`, the
behaviour of Python's `str.replace` for a non-empty pattern.  `fuel` bounds
the scan; each step consumes at least one character, so starting with
`fuel = s.length` never exhausts it.  An empty pattern leaves the list
unchanged (the source only ever replaces the non-empty `'s3://'`). -/
def pyReplaceCore (pat rep : List Char) : Nat → List Char → List Char
  | _, [] => []
  | 0, s => s
  | fuel + 1, c :: cs =>
    if !pat.isEmpty && matchesAt pat (c :: cs) then
      rep ++ pyReplaceCore pat rep fuel (List.drop pat.length (c :: cs))
    else
      c :: pyReplaceCore pat rep fuel cs

/-- Python `s.replace(pat, rep)`. -/
def pyReplace (s pat rep : String) : String :=
  ⟨pyReplaceCore pat.data rep.data s.data.length s.data⟩

/-- Python `s.split(sep, 1)`: the part before the first `sep`, and the rest
after it (`none` when `sep` does not occur). -/
def splitFirst (sep : Char) : List Char → List Char × Option (List Char)
  | [] => ([], none)
  | c :: cs =>
    if c == sep then ([], some cs)
    else
      let r := splitFirst sep cs
      (c :: r.1, r.2)

/-- Python `s.split(sep)` (split on every occurrence). -/
def splitAllChar (sep : Char) : List Char → List (List Char)
  | [] => [[]]
  | c :: cs =>
    let r := splitAllChar sep cs
    if c == sep then [] :: r
    else
      match r with
      | h :: t => (c :: h) :: t
      | [] => [[c]]

/-- Python `s.startswith(p)`. -/
def strStartsWith (s p : String) : Bool :=
  matchesAt p.data s.data

/-- Python `s.endswith(p)`. -/
def strEndsWith (s p : String) : Bool :=
  matchesAt p.data.reverse s.data.reverse

/-- Lines 153-158, `parse_s3_uri`:
`parts = s3_uri.replace('s3://', '').split('/', 1)`,
`bucket = parts[0]`, `prefix = parts[1] if len(parts) > 1 else ''`. -/
def parse_s3_uri (s3_uri : String) : String × String :=
  let stripped := pyReplace s3_uri "s3://" ""
  match splitFirst '/' stripped.data with
  | (b, some rest) => (⟨b⟩, ⟨rest⟩)
  | (b, none) => (⟨b⟩, "")

/-- One object of the S3 bucket: key and size in bytes. -/
structure S3Object where
  key : String
  size : Nat
  deriving DecidableEq, Repr

/-- One entry of the list returned by `list_s3_files`. -/
structure FileInfo where
  name : String
  uri : String
  size : Nat
  size_str : String
  deriving DecidableEq, Repr

/-- Round `n * 10 / d` to the nearest integer, ties to even.  For `d` a power
of two and `n < 2^52` the Python float `n / d` is exact, so this is the
tenths digit produced by `f"{n / d:.1f}"`. -/
def roundTenthsHalfEven (n d : Nat) : Nat :=
  let q := n * 10 / d
  let r := n * 10 % d
  if 2 * r < d then q
  else if d < 2 * r then q + 1
  else if q % 2 = 0 then q else q + 1

/-- `f"{n / d:.1f}"` for exact binary `n / d`. -/
def fmtOneDecimal (n d : Nat) : String :=
  let t := roundTenthsHalfEven n d
  toString (t / 10) ++ "." ++ toString (t % 10)

/-- Lines 204-210: the size formatting of `list_s3_files`:
`f"{file_size} B"` below 1024, `f"{file_size / 1024:.1f} KB"` below
1024 * 1024, else `f"{file_size / (1024 * 1024):.1f} MB"`. -/
def formatSize (file_size : Nat) : String :=
  if file_size < 1024 then
    toString file_size ++ " B"
  else if file_size < 1024 * 1024 then
    fmtOneDecimal file_size 1024 ++ " KB"
  else
    fmtOneDecimal file_size (1024 * 1024) ++ " MB"

/-- Model of the paginated `list_objects_v2` service for one bucket: the
pages seen by the paginator, here a single page whose `Contents` are the
bucket's objects whose key starts with the requested prefix, in store
order.  A page with no `Contents` key would be `none`. -/
def s3ListPages (store : List S3Object) (pfx : String) :
    List (Option (List S3Object)) :=
  [some (store.filter (fun o => strStartsWith o.key pfx))]

/-- Lines 174-222, `list_s3_files` (the store's objects are passed in as
`store`): normalize the prefix to end with `'/'` when non-empty, page through
the listing, and keep every object whose key is not the prefix itself and
does not end with `'/'`; `name` is `key.split('/')[-1]`, `uri` is
`f"s3://{bucket}/{key}"`, and `size_str` is the formatted size. -/
def list_s3_files (store : List S3Object) (s3_folder_uri : String) :
    List FileInfo :=
  let bp := parse_s3_uri s3_folder_uri
  let bucket := bp.1
  let pfx :=
    if !(bp.2 == "") && !(strEndsWith bp.2 "/") then bp.2 ++ "/" else bp.2
  (s3ListPages store pfx).foldl (fun files page =>
    match page with
    | some contents =>
      contents.foldl (fun files o =>
        if !(o.key == pfx) && !(strEndsWith o.key "/") then
          files ++ [{ name := ⟨(splitAllChar '/' o.key.data).getLast?.getD []⟩,
                      uri := "s3://" ++ bucket ++ "/" ++ o.key,
                      size := o.size,
                      size_str := formatSize o.size }]
        else files) files
    | none => files) []

/-- The store of the listing scenario: `docs/a.txt` (500 bytes), the
zero-byte directory marker `docs/`, and the nested `docs/sub/b.txt`. -/
def scenarioStore : List S3Object :=
  [{ key := "docs/a.txt", size := 500 },
   { key := "docs/", size := 0 },
   { key := "docs/sub/b.txt", size := 2048 }]


/-- A status response that is present (the call did not fail) and whose state
is none of `SUCCESS`, `FAILURE`, `TIMEOUT` — a non-terminal response in the
spec's sense. -/
def isNonTerminalResp (r : Option StatusResponse) : Bool :=
  match r with
  | some sr =>
    sr.state != some "SUCCESS" && sr.state != some "FAILURE" &&
      sr.state != some "TIMEOUT"
  | none => false

/-- A status response that is present and not `SUCCESS` — exactly the
responses that make the bulk auto-poll loop continue. -/
def presentNonSuccess (r : Option StatusResponse) : Bool :=
  match r with
  | some sr => sr.state.getD "UNKNOWN" != "SUCCESS"
  | none => false

/-- A status response on which the chat poll loop does not break: a failed
call (`none`), or a present response that is neither `SUCCESS`-with-truthy-
`result` nor `FAILURE`/`TIMEOUT`. -/
def chatNonStop (r : Option StatusResponse) : Bool :=
  match r with
  | none => true
  | some sr =>
    !(sr.state == some "SUCCESS" && truthyStr sr.result) &&
      !(sr.state == some "FAILURE" || sr.state == some "TIMEOUT")

/-- The initial session state (lines 75-86): `processing = False`,
`kickoff_id = None`, `upload_complete = False`, `chat_messages = []`,
`chat_id = None`. -/
def initialSession : SessionState :=
  { processing := false, kickoff_id := none, upload_complete := false,
    chat_messages := [], chat_id := none }

/-- Status sequence: every call reports state `FAILURE`. -/
def respAllFailure : Nat -> Option StatusResponse :=
  fun _ => some { state := some "FAILURE", result := none }

/-- Status sequence: every call reports state `PENDING`. -/
def respAllPending : Nat -> Option StatusResponse :=
  fun _ => some { state := some "PENDING", result := none }

/-- Status sequence: `RUNNING` on the first call, `FAILURE` from then on. -/
def respRunThenFail : Nat -> Option StatusResponse :=
  fun i =>
    if i = 0 then some { state := some "RUNNING", result := none }
    else some { state := some "FAILURE", result := none }

/-- Status sequence: the first call fails at transport level (`None`), every
later call reports `SUCCESS` with result string `"R"`. -/
def respTransportThenSuccess : Nat -> Option StatusResponse :=
  fun i =>
    if i = 0 then none
    else some { state := some "SUCCESS", result := some "R" }

/-- Status sequence: every call fails at transport level. -/
def respAllNone : Nat -> Option StatusResponse := fun _ => none

/-- Status sequence: every call reports `SUCCESS` with result string `"B"`. -/
def respSuccessB : Nat -> Option StatusResponse :=
  fun _ => some { state := some "SUCCESS", result := some "B" }

/-- Status sequence: every call reports `SUCCESS` whose `result` is the empty
string, which is falsy in Python. -/
def respSuccessEmptyResult : Nat -> Option StatusResponse :=
  fun _ => some { state := some "SUCCESS", result := some "" }

/-- Status sequence: `RUNNING` for the first five calls, then `SUCCESS`. -/
def respRunning5 : Nat -> Option StatusResponse :=
  fun i =>
    if i < 5 then some { state := some "RUNNING", result := none }
    else some { state := some "SUCCESS", result := some "done" }

/-- A `json.loads` model that fails on every result string. -/
def parseFail : String -> Option ParsedResult := fun _ => none

/-- A `json.loads` model under which `"R"` parses to response `"hi"` with
conversation id `"c1"` and everything else fails. -/
def parseHi : String -> Option ParsedResult :=
  fun s =>
    if s = "R" then some { response := some "hi", id := some "c1" }
    else none

/-- A `json.loads` model under which `"B"` parses to a structure with a blank
`response` and no `id` (as `json.loads` does for a result whose response
field is the empty string) and everything else fails. -/
def parseBlank : String -> Option ParsedResult :=
  fun s =>
    if s = "B" then some { response := some "", id := none }
    else none

lemma isNonTerminalResp_chatNonStop (r : Option StatusResponse)
    (h : isNonTerminalResp r = true) : chatNonStop r = true := by
  cases r with
  | none => rfl
  | some sr => simp_all [isNonTerminalResp, chatNonStop]

lemma isNonTerminalResp_presentNonSuccess (r : Option StatusResponse)
    (h : isNonTerminalResp r = true) : presentNonSuccess r = true := by
  cases r with
  | none => simp_all [isNonTerminalResp]
  | some sr =>
    cases hs : sr.state with
    | none => simp [presentNonSuccess, hs]
    | some s => simp_all [isNonTerminalResp, presentNonSuccess, hs]

lemma chatPollGo_step (resp : Nat → Option StatusResponse)
    (parse : String → Option ParsedResult) (i fuel : Nat) (hf : fuel ≠ 0)
    (h : chatNonStop (resp i) = true) :
    chatPollGo resp parse i (fuel + 1) =
      ((chatPollGo resp parse (i + 1) fuel).1 + 1,
       (chatPollGo resp parse (i + 1) fuel).2) := by
  cases hr : resp i with
  | none => simp [chatPollGo, hr, hf]
  | some sr =>
    rw [hr] at h
    simp only [chatNonStop, Bool.and_eq_true, Bool.not_eq_true'] at h
    obtain ⟨h1, h2⟩ := h
    simp [chatPollGo, hr, h1, h2, hf]

lemma chatPollGo_last (resp : Nat → Option StatusResponse)
    (parse : String → Option ParsedResult) (i : Nat)
    (h : chatNonStop (resp i) = true) :
    chatPollGo resp parse i 1 = (1, .pollTimeout) := by
  cases hr : resp i with
  | none => simp [chatPollGo, hr]
  | some sr =>
    rw [hr] at h
    simp only [chatNonStop, Bool.and_eq_true, Bool.not_eq_true'] at h
    obtain ⟨h1, h2⟩ := h
    simp [chatPollGo, hr, h1, h2]

lemma chatPollGo_skip (resp : Nat → Option StatusResponse)
    (parse : String → Option ParsedResult) :
    ∀ (k i fuel : Nat), k < fuel →
      (∀ j, j < k → chatNonStop (resp (i + j)) = true) →
      chatPollGo resp parse i fuel =
        ((chatPollGo resp parse (i + k) (fuel - k)).1 + k,
         (chatPollGo resp parse (i + k) (fuel - k)).2) := by
  intro k
  induction k with
  | zero => intro i fuel _ _; simp
  | succ k ih =>
    intro i fuel hk hall
    obtain ⟨f, rfl⟩ : ∃ f, fuel = f + 1 := ⟨fuel - 1, by omega⟩
    have h0 : chatNonStop (resp i) = true := by
      have := hall 0 (by omega)
      simpa using this
    rw [chatPollGo_step resp parse i f (by omega) h0]
    have hrec := ih (i + 1) f (by omega) (fun j hj => by
      have := hall (j + 1) (by omega)
      simpa [Nat.add_assoc, Nat.add_comm 1 j] using this)
    rw [hrec]
    have hidx : i + 1 + k = i + (k + 1) := by omega
    have hfuel : f - k = f + 1 - (k + 1) := by omega
    rw [hidx, hfuel]
    simp only [Prod.mk.injEq]
    exact ⟨by omega, trivial⟩

lemma chatPollGo_all_nonstop (resp : Nat → Option StatusResponse)
    (parse : String → Option ParsedResult) (fuel : Nat) (h1 : 1 ≤ fuel)
    (h : ∀ j, j < fuel → chatNonStop (resp j) = true) :
    chatPollGo resp parse 0 fuel = (fuel, .pollTimeout) := by
  have hs := chatPollGo_skip resp parse (fuel - 1) 0 fuel (by omega)
    (fun j hj => by simpa using h j (by omega))
  rw [hs]
  have hlast := chatPollGo_last resp parse (fuel - 1) (h (fuel - 1) (by omega))
  have hf : fuel - (fuel - 1) = 1 := by omega
  simp only [Nat.zero_add, hf, hlast]
  simp only [Prod.mk.injEq]
  exact ⟨by omega, trivial⟩

lemma chatPollGo_stop_failure (resp : Nat → Option StatusResponse)
    (parse : String → Option ParsedResult) (i fuel : Nat) (r : StatusResponse)
    (hr : resp i = some r)
    (hst : r.state = some "FAILURE" ∨ r.state = some "TIMEOUT") :
    chatPollGo resp parse i (fuel + 1) = (1, .jobFailed (r.state.getD "")) := by
  rcases hst with h | h <;> simp [chatPollGo, hr, h]

lemma chatPollGo_stop_success (resp : Nat → Option StatusResponse)
    (parse : String → Option ParsedResult) (i fuel : Nat) (r : StatusResponse)
    (hr : resp i = some r) (hs : r.state = some "SUCCESS")
    (ht : truthyStr r.result = true) :
    chatPollGo resp parse i (fuel + 1) =
      (match parse (r.result.getD "") with
       | some pd => (1, .answered (pd.response.getD "") pd.id)
       | none => (1, .parseError)) := by
  simp [chatPollGo, hr, hs, ht]

lemma bulkLoopGo_step (resp : Nat → Option StatusResponse) (i fuel : Nat)
    (h : presentNonSuccess (resp i) = true) :
    bulkLoopGo resp i (fuel + 1) =
      ((bulkLoopGo resp (i + 1) fuel).1 + 1,
       (bulkLoopGo resp (i + 1) fuel).2) := by
  cases hr : resp i with
  | none => rw [hr] at h; exact absurd h (by simp [presentNonSuccess])
  | some sr =>
    rw [hr] at h
    simp only [presentNonSuccess, bne_iff_ne, ne_eq] at h
    simp [bulkLoopGo, hr, h]

lemma bulkLoopGo_skip (resp : Nat → Option StatusResponse) :
    ∀ (k i fuel : Nat), k ≤ fuel →
      (∀ j, j < k → presentNonSuccess (resp (i + j)) = true) →
      bulkLoopGo resp i fuel =
        ((bulkLoopGo resp (i + k) (fuel - k)).1 + k,
         (bulkLoopGo resp (i + k) (fuel - k)).2) := by
  intro k
  induction k with
  | zero => intro i fuel _ _; simp
  | succ k ih =>
    intro i fuel hk hall
    obtain ⟨f, rfl⟩ : ∃ f, fuel = f + 1 := ⟨fuel - 1, by omega⟩
    have h0 : presentNonSuccess (resp i) = true := by
      have := hall 0 (by omega)
      simpa using this
    rw [bulkLoopGo_step resp i f h0]
    have hrec := ih (i + 1) f (by omega) (fun j hj => by
      have := hall (j + 1) (by omega)
      simpa [Nat.add_assoc, Nat.add_comm 1 j] using this)
    rw [hrec]
    have hidx : i + 1 + k = i + (k + 1) := by omega
    have hfuel : f - k = f + 1 - (k + 1) := by omega
    rw [hidx, hfuel]
    simp only [Prod.mk.injEq]
    exact ⟨by omega, trivial⟩

lemma bulkLoopGo_all_nonsuccess (resp : Nat → Option StatusResponse)
    (fuel : Nat) (h : ∀ j, j < fuel → presentNonSuccess (resp j) = true) :
    bulkLoopGo resp 0 fuel = (fuel, .timedOut) := by
  have hs := bulkLoopGo_skip resp fuel 0 fuel (by omega)
    (fun j hj => by simpa using h j (by omega))
  rw [hs]
  simp [bulkLoopGo]

lemma bulkLoopGo_stop_transport (resp : Nat → Option StatusResponse)
    (i fuel : Nat) (hr : resp i = none) :
    bulkLoopGo resp i (fuel + 1) = (1, .transportFail) := by
  simp [bulkLoopGo, hr]

lemma bulkLoopGo_stop_success (resp : Nat → Option StatusResponse)
    (i fuel : Nat) (r : StatusResponse) (hr : resp i = some r)
    (hs : r.state.getD "UNKNOWN" = "SUCCESS") :
    bulkLoopGo resp i (fuel + 1) = (1, .completed) := by
  simp [bulkLoopGo, hr, hs]

lemma chatPollGo_answered_src (resp : Nat → Option StatusResponse)
    (parse : String → Option ParsedResult) :
    ∀ (fuel i c : Nat) (text : String) (nid : Option String),
      chatPollGo resp parse i fuel = (c, .answered text nid) →
      ∃ j r pd, i ≤ j ∧ resp j = some r ∧ r.state = some "SUCCESS" ∧
        truthyStr r.result = true ∧ parse (r.result.getD "") = some pd ∧
        pd.response.getD "" = text ∧ pd.id = nid := by
  intro fuel
  induction fuel with
  | zero => intro i c text nid h; simp [chatPollGo] at h
  | succ fuel ih =>
    intro i c text nid h
    cases hr : resp i with
    | none =>
      simp only [chatPollGo, hr] at h
      by_cases hf : (fuel == 0) = true
      · rw [if_pos hf] at h
        exact absurd h (by simp)
      · rw [if_neg hf] at h
        simp only [Prod.mk.injEq] at h
        obtain ⟨j, r, pd, hij, hrest⟩ := ih (i + 1) _ text nid
          (Prod.ext rfl h.2)
        exact ⟨j, r, pd, by omega, hrest⟩
    | some r =>
      simp only [chatPollGo, hr] at h
      by_cases h1 : (r.state == some "SUCCESS" && truthyStr r.result) = true
      · rw [if_pos h1] at h
        simp only [Bool.and_eq_true, beq_iff_eq] at h1
        cases hp : parse (r.result.getD "") with
        | none =>
          rw [hp] at h
          exact absurd h (by simp)
        | some pd =>
          rw [hp] at h
          simp only [Prod.mk.injEq, ChatPollOutcome.answered.injEq] at h
          exact ⟨i, r, pd, le_refl i, hr, h1.1, h1.2, hp, h.2.1, h.2.2⟩
      · rw [if_neg h1] at h
        by_cases h2 :
            (r.state == some "FAILURE" || r.state == some "TIMEOUT") = true
        · rw [if_pos h2] at h
          exact absurd h (by simp)
        · rw [if_neg h2] at h
          by_cases hf : (fuel == 0) = true
          · rw [if_pos hf] at h
            exact absurd h (by simp)
          · rw [if_neg hf] at h
            simp only [Prod.mk.injEq] at h
            obtain ⟨j, r', pd, hij, hrest⟩ := ih (i + 1) _ text nid
              (Prod.ext rfl h.2)
            exact ⟨j, r', pd, by omega, hrest⟩

/-- C1 counterexample: the claim is false for the bulk auto-poll loop.  On a
status sequence whose very first response is state `FAILURE` (so the sequence
reaches `FAILURE` at attempt 1, well below `maxAttempts = 30`), the bulk loop
does not stop at that attempt: it makes all 30 status calls and then reports
the poll timeout warning, not the job error. -/
theorem c1_counterexample :
    bulkPollLoop respAllFailure = (30, .timedOut) ∧
    (bulkPollLoop respAllFailure).1 ≠ 1 := by decide

/-- C1 (amended): in the chat poll loop a status response with state
`FAILURE` or `TIMEOUT` is terminal — reached after `k < 120` non-terminal
responses, polling stops at attempt `k + 1` (no further status calls) and
the job error is reported — while in the bulk auto-poll loop only `SUCCESS`
is terminal: a present non-`SUCCESS` response (`FAILURE` and `TIMEOUT`
included) is re-polled, so 30 such responses exhaust the attempt budget. -/
theorem c1_terminal_states :
    (∀ (resp : Nat → Option StatusResponse)
       (parse : String → Option ParsedResult) (k : Nat) (r : StatusResponse),
       k < 120 →
       (∀ j, j < k → isNonTerminalResp (resp j) = true) →
       resp k = some r →
       (r.state = some "FAILURE" ∨ r.state = some "TIMEOUT") →
       chatPoll resp parse = (k + 1, .jobFailed (r.state.getD ""))) ∧
    (∀ (resp : Nat → Option StatusResponse),
       (∀ j, j < 30 → presentNonSuccess (resp j) = true) →
       bulkPollLoop resp = (30, .timedOut)) := by
  constructor
  · intro resp parse k r hk hpre hr hst
    unfold chatPoll
    have h1 : chatPollGo resp parse k (120 - k) =
        (1, .jobFailed (r.state.getD "")) := by
      obtain ⟨f, hf⟩ : ∃ f, 120 - k = f + 1 := ⟨120 - k - 1, by omega⟩
      rw [hf]
      exact chatPollGo_stop_failure resp parse k f r hr hst
    rw [chatPollGo_skip resp parse k 0 120 hk (fun j hj => by
      simpa using isNonTerminalResp_chatNonStop _ (hpre j hj))]
    rw [Nat.zero_add, h1]
    simp [Nat.add_comm]
  · intro resp h
    exact bulkLoopGo_all_nonsuccess resp 30 h

/-- C1 witness: on the sequence `RUNNING` then `FAILURE`, the chat loop makes
exactly 2 status calls and reports the job failure; on the all-`FAILURE`
sequence the bulk loop makes all 30 calls and times out. -/
theorem c1_witness :
    chatPoll respRunThenFail parseFail = (2, .jobFailed "FAILURE") ∧
    bulkPollLoop respAllFailure = (30, .timedOut) := by
  constructor
  · have h := c1_terminal_states.1 respRunThenFail parseFail 1
      { state := some "FAILURE", result := none } (by decide)
      (by decide) (by decide) (Or.inl rfl)
    simpa using h
  · exact c1_terminal_states.2 respAllFailure (by decide)

/-- C2 counterexample: the claim is false for the chat poll loop.  On a
status sequence whose first call fails at the transport level and whose
second call reports `SUCCESS` with a parseable result, the chat loop does not
abort at the failed call: it makes a second status call and appends the
answer. -/
theorem c2_counterexample :
    chatPoll respTransportThenSuccess parseHi =
      (2, .answered "hi" (some "c1")) ∧
    (chatPoll respTransportThenSuccess parseHi).1 ≠ 1 := by decide

/-- C2 (amended): the bulk auto-poll loop aborts immediately on the first
transport-level status failure (a falsy `status_data`), while the chat poll
loop treats a failed status call like a non-terminal response and re-polls:
a sequence of 120 transport failures runs the whole attempt budget and then
reports the poll timeout. -/
theorem c2_transport :
    (∀ (resp : Nat → Option StatusResponse) (k : Nat),
       k < 30 →
       (∀ j, j < k → presentNonSuccess (resp j) = true) →
       resp k = none →
       bulkPollLoop resp = (k + 1, .transportFail)) ∧
    (∀ (resp : Nat → Option StatusResponse)
       (parse : String → Option ParsedResult),
       (∀ j, j < 120 → resp j = none) →
       chatPoll resp parse = (120, .pollTimeout)) := by
  constructor
  · intro resp k hk hpre hr
    unfold bulkPollLoop
    have h1 : bulkLoopGo resp k (30 - k) = (1, .transportFail) := by
      obtain ⟨f, hf⟩ : ∃ f, 30 - k = f + 1 := ⟨30 - k - 1, by omega⟩
      rw [hf]
      exact bulkLoopGo_stop_transport resp k f hr
    rw [bulkLoopGo_skip resp k 0 30 (by omega)
      (fun j hj => by simpa using hpre j hj)]
    rw [Nat.zero_add, h1]
    simp [Nat.add_comm]
  · intro resp parse h
    exact chatPollGo_all_nonstop resp parse 120 (by omega)
      (fun j hj => by rw [h j hj]; rfl)

/-- C2 witness: the bulk loop stops after one call when that call fails at
transport level; the chat loop makes all 120 calls when every call fails. -/
theorem c2_witness :
    bulkPollLoop respAllNone = (1, .transportFail) ∧
    chatPoll respAllNone parseFail = (120, .pollTimeout) := by
  constructor
  · have h := c2_transport.1 respAllNone 0 (by decide)
      (fun j hj => absurd hj (by omega)) rfl
    simpa using h
  · exact c2_transport.2 respAllNone parseFail (fun j hj => rfl)

/-- C5: on a status sequence that never reaches a terminal state, the chat
loop makes exactly 120 status calls and the bulk loop exactly 30, each then
reporting a poll timeout; and on `RUNNING` five times then `SUCCESS` the bulk
loop makes exactly 6 status calls, no budget of fewer than 6 calls completes,
and the auto-poll section flips `processing` to false with exactly those 6
calls. -/
theorem c5_attempt_counts :
    (∀ (resp : Nat → Option StatusResponse)
       (parse : String → Option ParsedResult),
       (∀ j, j < 120 → isNonTerminalResp (resp j) = true) →
       chatPoll resp parse = (120, .pollTimeout)) ∧
    (∀ (resp : Nat → Option StatusResponse),
       (∀ j, j < 30 → isNonTerminalResp (resp j) = true) →
       bulkPollLoop resp = (30, .timedOut)) ∧
    bulkPollLoop respRunning5 = (6, .completed) ∧
    (∀ m, m < 6 → (bulkLoopGo respRunning5 0 m).2 ≠ .completed) ∧
    (∀ s : SessionState, truthyStr s.kickoff_id = true → s.processing = true →
       bulkAutoPoll respRunning5 s =
         ({ s with processing := false }, 6, some .completed)) := by
  refine ⟨?_, ?_, by decide, by decide, ?_⟩
  · intro resp parse h
    exact chatPollGo_all_nonstop resp parse 120 (by omega)
      (fun j hj => isNonTerminalResp_chatNonStop _ (h j hj))
  · intro resp h
    exact bulkLoopGo_all_nonsuccess resp 30
      (fun j hj => isNonTerminalResp_presentNonSuccess _ (h j hj))
  · intro s h1 h2
    have hb : bulkPollLoop respRunning5 = (6, .completed) := by decide
    simp [bulkAutoPoll, h1, h2, hb]

/-- C5 witness: the all-`PENDING` sequence exhausts both budgets, and the
`RUNNING`-five-times-then-`SUCCESS` sequence completes the bulk auto-poll in
exactly 6 calls, flipping `processing` to false. -/
theorem c5_witness :
    chatPoll respAllPending parseFail = (120, .pollTimeout) ∧
    bulkPollLoop respAllPending = (30, .timedOut) ∧
    bulkAutoPoll respRunning5
      { processing := true, kickoff_id := some "kb",
        upload_complete := false, chat_messages := [], chat_id := none } =
      ({ processing := false, kickoff_id := some "kb",
         upload_complete := false, chat_messages := [], chat_id := none },
       6, some .completed) := by
  refine ⟨c5_attempt_counts.1 respAllPending parseFail (by decide),
          c5_attempt_counts.2.1 respAllPending (by decide), ?_⟩
  have h := c5_attempt_counts.2.2.2.2
    { processing := true, kickoff_id := some "kb",
      upload_complete := false, chat_messages := [], chat_id := none }
    (by decide) rfl
  simpa using h

/-- C8 counterexample: the claim's scenario is false.  Against a store
containing `docs/a.txt` (500 bytes), the zero-byte marker `docs/` and the
nested `docs/sub/b.txt`, `list_s3_files` on `s3://bucket/docs` returns
`a.txt` and `b.txt`, not only `a.txt`: the listing uses no delimiter, so
objects under nested prefixes pass the filter. -/
theorem c8_counterexample :
    (list_s3_files scenarioStore "s3://bucket/docs").map
        (fun f => f.name) = ["a.txt", "b.txt"] ∧
    ¬ (list_s3_files scenarioStore "s3://bucket/docs").map
        (fun f => f.name) = ["a.txt"] := by decide

/-- C8 (amended): listing filters out keys ending in `/` (directory markers)
and the prefix key itself, but keeps nested objects; in the scenario it
returns `a.txt` with size `"500 B"` and `sub`'s `b.txt` with size
`"2.0 KB"`; sizes format as `<n> B` below 1024 bytes, kilobytes with one
decimal below 1 MiB, else megabytes with one decimal. -/
theorem c8_listing :
    (list_s3_files scenarioStore "s3://bucket/docs").map
        (fun f => (f.name, f.size_str, f.uri, f.size)) =
      [("a.txt", "500 B", "s3://bucket/docs/a.txt", 500),
       ("b.txt", "2.0 KB", "s3://bucket/docs/sub/b.txt", 2048)] ∧
    formatSize 1023 = "1023 B" ∧
    formatSize 1024 = "1.0 KB" ∧
    formatSize 1048575 = "1024.0 KB" ∧
    formatSize 1048576 = "1.0 MB" ∧
    formatSize 1572864 = "1.5 MB" := by decide

lemma chatTurn_eq_submitFailed (kickoff : Option (Option String))
    (status : String → Nat → Option StatusResponse)
    (parse : String → Option ParsedResult) (s : SessionState) (msg : String)
    (hk : ∀ kid, kickoff ≠ some (some kid)) :
    chatTurn kickoff status parse s msg =
      { state := { s with chat_messages :=
          s.chat_messages ++ [{ role := "user", content := msg }] },
        inputs := chatInputData s.chat_id msg,
        polledId := none, statusCalls := 0, outcome := .submitFailed } := by
  cases kickoff with
  | none => rfl
  | some k =>
    cases k with
    | none => rfl
    | some kid => exact absurd rfl (hk kid)

lemma chatTurn_eq_answered (status : String → Nat → Option StatusResponse)
    (parse : String → Option ParsedResult) (s : SessionState) (msg : String)
    (kid text : String) (nid : Option String)
    (hpo : (chatPoll (status kid) parse).2 = .answered text nid) :
    chatTurn (some (some kid)) status parse s msg =
      { state := { s with
          chat_messages := s.chat_messages ++
            [{ role := "user", content := msg }] ++
            [{ role := "assistant", content := text }],
          chat_id := if truthyStr nid = true then nid else s.chat_id },
        inputs := chatInputData s.chat_id msg,
        polledId := some kid,
        statusCalls := (chatPoll (status kid) parse).1,
        outcome := .polled (.answered text nid) } := by
  unfold chatTurn
  simp only [hpo]
  by_cases ht : truthyStr nid = true <;>
    simp [ht, List.append_assoc]

lemma chatTurn_eq_other (status : String → Nat → Option StatusResponse)
    (parse : String → Option ParsedResult) (s : SessionState) (msg : String)
    (kid : String) (po : ChatPollOutcome)
    (hpo : (chatPoll (status kid) parse).2 = po)
    (hne : ∀ text nid, po ≠ .answered text nid) :
    chatTurn (some (some kid)) status parse s msg =
      { state := { s with chat_messages :=
          s.chat_messages ++ [{ role := "user", content := msg }] },
        inputs := chatInputData s.chat_id msg,
        polledId := some kid,
        statusCalls := (chatPoll (status kid) parse).1,
        outcome := .polled po } := by
  cases po with
  | answered t n => exact absurd rfl (hne t n)
  | parseError => unfold chatTurn; simp only [hpo]
  | jobFailed st => unfold chatTurn; simp only [hpo]
  | pollTimeout => unfold chatTurn; simp only [hpo]

lemma chatTurn_inputs (kickoff : Option (Option String))
    (status : String → Nat → Option StatusResponse)
    (parse : String → Option ParsedResult) (s : SessionState) (msg : String) :
    (chatTurn kickoff status parse s msg).inputs = chatInputData s.chat_id msg := by
  cases kickoff with
  | none => rfl
  | some k =>
    cases k with
    | none => rfl
    | some kid =>
      cases hpo : (chatPoll (status kid) parse).2 with
      | answered text nid =>
        rw [chatTurn_eq_answered status parse s msg kid text nid hpo]
      | parseError =>
        rw [chatTurn_eq_other status parse s msg kid _ hpo
          (fun t n h => ChatPollOutcome.noConfusion h)]
      | jobFailed st =>
        rw [chatTurn_eq_other status parse s msg kid _ hpo
          (fun t n h => ChatPollOutcome.noConfusion h)]
      | pollTimeout =>
        rw [chatTurn_eq_other status parse s msg kid _ hpo
          (fun t n h => ChatPollOutcome.noConfusion h)]

/-- C10: a chat turn only modifies the chat fields of the session state —
whatever the outcome, `kickoff_id`, `processing` and `upload_complete` are
unchanged. -/
theorem c10_chat_frame :
    ∀ (kickoff : Option (Option String))
      (status : String → Nat → Option StatusResponse)
      (parse : String → Option ParsedResult) (s : SessionState) (msg : String),
      (chatTurn kickoff status parse s msg).state.kickoff_id = s.kickoff_id ∧
      (chatTurn kickoff status parse s msg).state.processing = s.processing ∧
      (chatTurn kickoff status parse s msg).state.upload_complete =
        s.upload_complete := by
  intro kickoff status parse s msg
  cases kickoff with
  | none => exact ⟨rfl, rfl, rfl⟩
  | some k =>
    cases k with
    | none => exact ⟨rfl, rfl, rfl⟩
    | some kid =>
      cases hpo : (chatPoll (status kid) parse).2 with
      | answered text nid =>
        rw [chatTurn_eq_answered status parse s msg kid text nid hpo]
        exact ⟨rfl, rfl, rfl⟩
      | parseError =>
        rw [chatTurn_eq_other status parse s msg kid _ hpo
          (fun t n h => ChatPollOutcome.noConfusion h)]
        exact ⟨rfl, rfl, rfl⟩
      | jobFailed st =>
        rw [chatTurn_eq_other status parse s msg kid _ hpo
          (fun t n h => ChatPollOutcome.noConfusion h)]
        exact ⟨rfl, rfl, rfl⟩
      | pollTimeout =>
        rw [chatTurn_eq_other status parse s msg kid _ hpo
          (fun t n h => ChatPollOutcome.noConfusion h)]
        exact ⟨rfl, rfl, rfl⟩

/-- C6: the user's message is appended to the transcript first and never
rolled back — the new transcript always extends
`old transcript ++ [user message]` — and when the kickoff fails (response
`None` or without `"kickoff_id"`), the turn ends with exactly that transcript,
no assistant reply, zero status calls, and the rest of the state unchanged. -/
theorem c6_user_message_kept :
    ∀ (kickoff : Option (Option String))
      (status : String → Nat → Option StatusResponse)
      (parse : String → Option ParsedResult) (s : SessionState) (msg : String),
      (∃ tail, (chatTurn kickoff status parse s msg).state.chat_messages =
        s.chat_messages ++ [{ role := "user", content := msg }] ++ tail) ∧
      ((∀ kid, kickoff ≠ some (some kid)) →
        chatTurn kickoff status parse s msg =
          { state := { s with chat_messages :=
              s.chat_messages ++ [{ role := "user", content := msg }] },
            inputs := chatInputData s.chat_id msg,
            polledId := none, statusCalls := 0,
            outcome := .submitFailed }) := by
  intro kickoff status parse s msg
  constructor
  · cases kickoff with
    | none =>
      refine ⟨[], ?_⟩
      rw [chatTurn_eq_submitFailed none status parse s msg
        (fun kid h => Option.noConfusion h)]
      simp
    | some k =>
      cases k with
      | none =>
        refine ⟨[], ?_⟩
        rw [chatTurn_eq_submitFailed (some none) status parse s msg
          (fun kid h => by simp at h)]
        simp
      | some kid =>
        cases hpo : (chatPoll (status kid) parse).2 with
        | answered text nid =>
          refine ⟨[{ role := "assistant", content := text }], ?_⟩
          rw [chatTurn_eq_answered status parse s msg kid text nid hpo]
        | parseError =>
          refine ⟨[], ?_⟩
          rw [chatTurn_eq_other status parse s msg kid _ hpo
            (fun t n h => ChatPollOutcome.noConfusion h)]
          simp
        | jobFailed st =>
          refine ⟨[], ?_⟩
          rw [chatTurn_eq_other status parse s msg kid _ hpo
            (fun t n h => ChatPollOutcome.noConfusion h)]
          simp
        | pollTimeout =>
          refine ⟨[], ?_⟩
          rw [chatTurn_eq_other status parse s msg kid _ hpo
            (fun t n h => ChatPollOutcome.noConfusion h)]
          simp
  · intro hk
    exact chatTurn_eq_submitFailed kickoff status parse s msg hk

/-- C6 witness: a kickoff response without `"kickoff_id"` leaves the
transcript ending at the user's message, with no assistant reply and the
rest of the initial session state unchanged. -/
theorem c6_witness :
    chatTurn (some none) (fun _ => respAllPending) parseFail
        initialSession "Hi" =
      { state :=
          { processing := false, kickoff_id := none, upload_complete := false,
            chat_messages := [{ role := "user", content := "Hi" }],
            chat_id := none },
        inputs := { current_message := "Hi", id := none },
        polledId := none, statusCalls := 0, outcome := .submitFailed } := by
  have h := (c6_user_message_kept (some none) (fun _ => respAllPending)
    parseFail initialSession "Hi").2 (fun kid h => by simp at h)
  simpa [initialSession, chatInputData] using h

/-- C7: submit succeeds iff the kickoff response contains `kickoff_id`.
When it does, the chat turn polls exactly that id and the bulk handler stores
exactly that id; when it does not, the chat turn makes no status calls and
reports the submit failure, and the bulk handler leaves no id, so the
auto-poll guard keeps the poll loop from ever running. -/
theorem c7_submit_iff_kickoff_id :
    ∀ (kickoff : Option (Option String))
      (status : String → Nat → Option StatusResponse)
      (parse : String → Option ParsedResult) (s : SessionState) (msg : String)
      (kickoffResp : Option (Option String)) (s2 : SessionState),
      (∀ kid, kickoff = some (some kid) →
        (chatTurn kickoff status parse s msg).polledId = some kid ∧
        (chatTurn kickoff status parse s msg).outcome ≠ .submitFailed) ∧
      ((∀ kid, kickoff ≠ some (some kid)) →
        (chatTurn kickoff status parse s msg).polledId = none ∧
        (chatTurn kickoff status parse s msg).statusCalls = 0 ∧
        (chatTurn kickoff status parse s msg).outcome = .submitFailed) ∧
      (∀ kid, kickoffResp = some (some kid) →
        (processAllDocuments kickoffResp s2).kickoff_id = some kid ∧
        (processAllDocuments kickoffResp s2).processing = true) ∧
      ((∀ kid, kickoffResp ≠ some (some kid)) →
        (processAllDocuments kickoffResp s2).kickoff_id = none ∧
        ∀ resp, bulkAutoPoll resp (processAllDocuments kickoffResp s2) =
          (processAllDocuments kickoffResp s2, 0, none)) := by
  intro kickoff status parse s msg kickoffResp s2
  refine ⟨?_, ?_, ?_, ?_⟩
  · rintro kid rfl
    cases hpo : (chatPoll (status kid) parse).2 with
    | answered text nid =>
      rw [chatTurn_eq_answered status parse s msg kid text nid hpo]
      exact ⟨rfl, by simp⟩
    | parseError =>
      rw [chatTurn_eq_other status parse s msg kid _ hpo
        (fun t n h => ChatPollOutcome.noConfusion h)]
      exact ⟨rfl, by simp⟩
    | jobFailed st =>
      rw [chatTurn_eq_other status parse s msg kid _ hpo
        (fun t n h => ChatPollOutcome.noConfusion h)]
      exact ⟨rfl, by simp⟩
    | pollTimeout =>
      rw [chatTurn_eq_other status parse s msg kid _ hpo
        (fun t n h => ChatPollOutcome.noConfusion h)]
      exact ⟨rfl, by simp⟩
  · intro hk
    rw [chatTurn_eq_submitFailed kickoff status parse s msg hk]
    exact ⟨rfl, rfl, rfl⟩
  · rintro kid rfl
    exact ⟨rfl, rfl⟩
  · intro hk
    cases kickoffResp with
    | none => exact ⟨rfl, fun resp => rfl⟩
    | some k =>
      cases k with
      | none => exact ⟨rfl, fun resp => rfl⟩
      | some kid => exact absurd rfl (hk kid)

/-- C7 witness: with a kickoff response carrying id `"k1"` the chat turn
polls `"k1"`; with a kickoff response lacking the id the chat turn makes no
status calls, and after the failed bulk kickoff the auto-poll loop never
runs. -/
theorem c7_witness :
    (chatTurn (some (some "k1")) (fun _ => respAllPending) parseFail
        initialSession "Hi").polledId = some "k1" ∧
    (chatTurn (some none) (fun _ => respAllPending) parseFail
        initialSession "Hi").statusCalls = 0 ∧
    bulkAutoPoll respAllPending (processAllDocuments (some none)
        initialSession) =
      (processAllDocuments (some none) initialSession, 0, none) := by
  refine ⟨?_, ?_, ?_⟩
  · exact ((c7_submit_iff_kickoff_id (some (some "k1"))
      (fun _ => respAllPending) parseFail initialSession "Hi"
      none initialSession).1 "k1" rfl).1
  · exact ((c7_submit_iff_kickoff_id (some none)
      (fun _ => respAllPending) parseFail initialSession "Hi"
      none initialSession).2.1 (fun kid h => by simp at h)).2.1
  · exact ((c7_submit_iff_kickoff_id none
      (fun _ => respAllPending) parseFail initialSession "Hi"
      (some none) initialSession).2.2.2 (fun kid h => by simp at h)).2
      respAllPending

/-- C9: after the "Process All Documents" handler, `processing` is true only
if a `kickoff_id` from the kickoff response was stored; a failed kickoff
(no response or no `kickoff_id`) leaves `processing` false and `kickoff_id`
`None`, so the auto-poll loop never runs for a job that was never started. -/
theorem c9_processing_invariant :
    ∀ (kickoffResp : Option (Option String)) (s : SessionState),
      ((processAllDocuments kickoffResp s).processing = true →
        ∃ kid, kickoffResp = some (some kid) ∧
          (processAllDocuments kickoffResp s).kickoff_id = some kid) ∧
      ((∀ kid, kickoffResp ≠ some (some kid)) →
        (processAllDocuments kickoffResp s).processing = false ∧
        (processAllDocuments kickoffResp s).kickoff_id = none ∧
        ∀ resp, bulkAutoPoll resp (processAllDocuments kickoffResp s) =
          (processAllDocuments kickoffResp s, 0, none)) := by
  intro kickoffResp s
  constructor
  · intro hp
    cases kickoffResp with
    | none => simp [processAllDocuments] at hp
    | some k =>
      cases k with
      | none => simp [processAllDocuments] at hp
      | some kid => exact ⟨kid, rfl, rfl⟩
  · intro hk
    cases kickoffResp with
    | none => exact ⟨rfl, rfl, fun resp => rfl⟩
    | some k =>
      cases k with
      | none => exact ⟨rfl, rfl, fun resp => rfl⟩
      | some kid => exact absurd rfl (hk kid)

/-- C9 witness: a kickoff response lacking `kickoff_id` leaves `processing`
false and `kickoff_id` `None`, and a successful kickoff stores the id. -/
theorem c9_witness :
    (processAllDocuments none initialSession).processing = false ∧
    (processAllDocuments none initialSession).kickoff_id = none ∧
    bulkAutoPoll respAllPending (processAllDocuments none initialSession) =
      (processAllDocuments none initialSession, 0, none) ∧
    (processAllDocuments (some (some "k1")) initialSession).kickoff_id =
      some "k1" := by
  have h := (c9_processing_invariant none initialSession).2
    (fun kid h => by simp at h)
  refine ⟨h.1, h.2.1, h.2.2 respAllPending, ?_⟩
  have h2 := (c9_processing_invariant (some (some "k1")) initialSession).1 rfl
  obtain ⟨kid, hk, hid⟩ := h2
  have hke : "k1" = kid := Option.some.inj (Option.some.inj hk)
  rw [← hke] at hid
  exact hid

/-- C4: the conversation id is sticky and never fabricated: the kickoff
payload's `id` is exactly the stored `chat_id` (absent iff unset); the stored
`chat_id` after a turn is either unchanged or set verbatim to the truthy `id`
field of a successfully parsed `SUCCESS` result; "Clear Chat" empties the
transcript and resets the id, so a turn after clearing sends a first-turn
payload with no `id`. -/
theorem c4_conversation_id_sticky :
    ∀ (kickoff : Option (Option String))
      (status : String → Nat → Option StatusResponse)
      (parse : String → Option ParsedResult) (s : SessionState) (msg : String),
      (chatTurn kickoff status parse s msg).inputs =
        chatInputData s.chat_id msg ∧
      (chatInputData none msg).id = none ∧
      (∀ cid, (chatInputData (some cid) msg).id = some cid) ∧
      ((chatTurn kickoff status parse s msg).state.chat_id = s.chat_id ∨
        ∃ kid j r pd text,
          (chatTurn kickoff status parse s msg).polledId = some kid ∧
          status kid j = some r ∧ r.state = some "SUCCESS" ∧
          truthyStr r.result = true ∧
          parse (r.result.getD "") = some pd ∧
          truthyStr pd.id = true ∧
          (chatTurn kickoff status parse s msg).state.chat_id = pd.id ∧
          (chatTurn kickoff status parse s msg).outcome =
            .polled (.answered text pd.id)) ∧
      (clearChat s).chat_messages = [] ∧
      (clearChat s).chat_id = none ∧
      (chatTurn kickoff status parse (clearChat s) msg).inputs =
        chatInputData none msg := by
  intro kickoff status parse s msg
  refine ⟨chatTurn_inputs kickoff status parse s msg, rfl, fun cid => rfl,
    ?_, rfl, rfl, ?_⟩
  · cases kickoff with
    | none =>
      left
      rw [chatTurn_eq_submitFailed none status parse s msg
        (fun kid h => Option.noConfusion h)]
    | some k =>
      cases k with
      | none =>
        left
        rw [chatTurn_eq_submitFailed (some none) status parse s msg
          (fun kid h => by simp at h)]
      | some kid =>
        cases hpo : (chatPoll (status kid) parse).2 with
        | answered text nid =>
          by_cases ht : truthyStr nid = true
          · right
            have heq : chatPollGo (status kid) parse 0 120 =
                ((chatPoll (status kid) parse).1, .answered text nid) :=
              Prod.ext rfl hpo
            obtain ⟨j, r, pd, hij, hr, hs, htr, hp, htext, hid⟩ :=
              chatPollGo_answered_src (status kid) parse 120 0 _ text nid heq
            refine ⟨kid, j, r, pd, text, ?_, hr, hs, htr, hp, ?_, ?_, ?_⟩
            · rw [chatTurn_eq_answered status parse s msg kid text nid hpo]
            · rw [hid]; exact ht
            · rw [chatTurn_eq_answered status parse s msg kid text nid hpo]
              simp [ht, hid]
            · rw [chatTurn_eq_answered status parse s msg kid text nid hpo]
              rw [hid]
          · left
            rw [chatTurn_eq_answered status parse s msg kid text nid hpo]
            simp [ht]
        | parseError =>
          left
          rw [chatTurn_eq_other status parse s msg kid _ hpo
            (fun t n h => ChatPollOutcome.noConfusion h)]
        | jobFailed st =>
          left
          rw [chatTurn_eq_other status parse s msg kid _ hpo
            (fun t n h => ChatPollOutcome.noConfusion h)]
        | pollTimeout =>
          left
          rw [chatTurn_eq_other status parse s msg kid _ hpo
            (fun t n h => ChatPollOutcome.noConfusion h)]
  · rw [chatTurn_inputs kickoff status parse (clearChat s) msg]
    rfl

/-- C3 counterexample: the claim is false.  On a turn whose first status
response is `SUCCESS` with a result that parses to a blank `response` and no
`id`, the turn is treated as a success: a blank assistant message is appended
to the transcript and no error is surfaced, contradicting the claim that
such a turn is treated as failed with no blank assistant message. -/
theorem c3_counterexample :
    (chatTurn (some (some "k1")) (fun _ => respSuccessB) parseBlank
        initialSession "Hello").state.chat_messages =
      [{ role := "user", content := "Hello" },
       { role := "assistant", content := "" }] ∧
    (chatTurn (some (some "k1")) (fun _ => respSuccessB) parseBlank
        initialSession "Hello").outcome = .polled (.answered "" none) ∧
    (chatTurn (some (some "k1")) (fun _ => respSuccessB) parseBlank
        initialSession "Hello").statusCalls = 1 := by decide

/-- C3 (amended): on terminal `SUCCESS` whose truthy `result` fails to parse,
the turn is treated as failed — a parse error is surfaced, no assistant
message is appended, and the conversation id is unchanged; on `SUCCESS` with
a missing or empty `result`, the response is re-polled like a non-terminal
state (surfacing only the poll timeout after the budget, with no assistant
message and the id unchanged); but on `SUCCESS` whose result parses, an
assistant message is appended even when the parsed `response` is blank. -/
theorem c3_success_result_policy :
    (∀ (status : String → Nat → Option StatusResponse)
       (parse : String → Option ParsedResult) (s : SessionState)
       (msg kid : String) (k : Nat) (r : StatusResponse),
       k < 120 →
       (∀ j, j < k → chatNonStop (status kid j) = true) →
       status kid k = some r →
       r.state = some "SUCCESS" →
       truthyStr r.result = true →
       parse (r.result.getD "") = none →
       chatTurn (some (some kid)) status parse s msg =
         { state := { s with chat_messages :=
             s.chat_messages ++ [{ role := "user", content := msg }] },
           inputs := chatInputData s.chat_id msg,
           polledId := some kid, statusCalls := k + 1,
           outcome := .polled .parseError }) ∧
    (∀ (status : String → Nat → Option StatusResponse)
       (parse : String → Option ParsedResult) (s : SessionState)
       (msg kid : String),
       (∀ j, j < 120 → ∃ r, status kid j = some r ∧
         r.state = some "SUCCESS" ∧ truthyStr r.result = false) →
       chatTurn (some (some kid)) status parse s msg =
         { state := { s with chat_messages :=
             s.chat_messages ++ [{ role := "user", content := msg }] },
           inputs := chatInputData s.chat_id msg,
           polledId := some kid, statusCalls := 120,
           outcome := .polled .pollTimeout }) ∧
    (∀ (status : String → Nat → Option StatusResponse)
       (parse : String → Option ParsedResult) (s : SessionState)
       (msg kid : String) (r : StatusResponse) (pd : ParsedResult),
       status kid 0 = some r →
       r.state = some "SUCCESS" →
       truthyStr r.result = true →
       parse (r.result.getD "") = some pd →
       chatTurn (some (some kid)) status parse s msg =
         { state := { s with
             chat_messages := s.chat_messages ++
               [{ role := "user", content := msg }] ++
               [{ role := "assistant", content := pd.response.getD "" }],
             chat_id := if truthyStr pd.id = true then pd.id else s.chat_id },
           inputs := chatInputData s.chat_id msg,
           polledId := some kid, statusCalls := 1,
           outcome := .polled (.answered (pd.response.getD "") pd.id) }) := by
  refine ⟨?_, ?_, ?_⟩
  · intro status parse s msg kid k r hk hpre hr hs ht hp
    have hpoll : chatPoll (status kid) parse = (k + 1, .parseError) := by
      unfold chatPoll
      have h1 : chatPollGo (status kid) parse k (120 - k) =
          (1, .parseError) := by
        obtain ⟨f, hf⟩ : ∃ f, 120 - k = f + 1 := ⟨120 - k - 1, by omega⟩
        rw [hf]
        have h2 := chatPollGo_stop_success (status kid) parse k f r hr hs ht
        simp only [hp] at h2
        exact h2
      rw [chatPollGo_skip (status kid) parse k 0 120 hk
        (fun j hj => by simpa using hpre j hj)]
      rw [Nat.zero_add, h1]
      simp [Nat.add_comm]
    rw [chatTurn_eq_other status parse s msg kid .parseError
      (by rw [hpoll]) (fun t n h => ChatPollOutcome.noConfusion h)]
    rw [hpoll]
  · intro status parse s msg kid h
    have hnon : ∀ j, j < 120 → chatNonStop (status kid j) = true := by
      intro j hj
      obtain ⟨r, hr, hs, ht⟩ := h j hj
      rw [hr]
      simp only [chatNonStop, hs, ht]
      decide
    have hpoll : chatPoll (status kid) parse = (120, .pollTimeout) :=
      chatPollGo_all_nonstop (status kid) parse 120 (by omega) hnon
    rw [chatTurn_eq_other status parse s msg kid .pollTimeout
      (by rw [hpoll]) (fun t n h2 => ChatPollOutcome.noConfusion h2)]
    rw [hpoll]
  · intro status parse s msg kid r pd hr hs ht hp
    have hpoll : chatPoll (status kid) parse =
        (1, .answered (pd.response.getD "") pd.id) := by
      have h2 := chatPollGo_stop_success (status kid) parse 0 119 r hr hs ht
      simp only [hp] at h2
      exact h2
    rw [chatTurn_eq_answered status parse s msg kid (pd.response.getD "")
      pd.id (by rw [hpoll])]
    rw [hpoll]

/-- C3 witness: a `SUCCESS` with unparseable result on the first call ends
the turn with a parse error (no assistant message, id unchanged, one status
call); a run of `SUCCESS` responses with empty results exhausts the budget
and ends with the poll timeout (no assistant message, id unchanged). -/
theorem c3_witness :
    chatTurn (some (some "k1")) (fun _ => respSuccessB) parseFail
        initialSession "Hi" =
      { state :=
          { processing := false, kickoff_id := none, upload_complete := false,
            chat_messages := [{ role := "user", content := "Hi" }],
            chat_id := none },
        inputs := { current_message := "Hi", id := none },
        polledId := some "k1", statusCalls := 1,
        outcome := .polled .parseError } ∧
    chatTurn (some (some "k1")) (fun _ => respSuccessEmptyResult) parseFail
        initialSession "Hi" =
      { state :=
          { processing := false, kickoff_id := none, upload_complete := false,
            chat_messages := [{ role := "user", content := "Hi" }],
            chat_id := none },
        inputs := { current_message := "Hi", id := none },
        polledId := some "k1", statusCalls := 120,
        outcome := .polled .pollTimeout } := by
  constructor
  · have h := c3_success_result_policy.1 (fun _ => respSuccessB) parseFail
      initialSession "Hi" "k1" 0
      { state := some "SUCCESS", result := some "B" }
      (by omega) (fun j hj => absurd hj (by omega)) rfl rfl (by decide) rfl
    simpa [initialSession, chatInputData] using h
  · have h := c3_success_result_policy.2.1 (fun _ => respSuccessEmptyResult)
      parseFail initialSession "Hi" "k1"
      (fun j hj => ⟨{ state := some "SUCCESS", result := some "" },
        rfl, rfl, by decide⟩)
    simpa [initialSession, chatInputData] using h
